import Mathlib

/-!
Verification development for the `@arcblock/sdk-util` BaseClient
(`src/packages/sdk-util/src/index.js`): a schema-driven GraphQL client
generator with a subscription multiplexer over a Phoenix-style channel.

The stateful subscription machinery is embedded as explicit state passing:
`MuxState` models `this.subscriptions` (an insertion-ordered mapping from
`queryId` to the stored record object) together with a counter supplying
object identities for freshly constructed EventEmitter instances.  Each
JavaScript handler becomes a pure function from the pre-state and the
triggering message/reply to the post-state plus the list of observable
effects (emitter events, channel pushes, scheduled timers).

The query-builder engine (`getQueryBuilders` et al., required from
`./util`) is not part of the repository snapshot under `src/`; those
definitions are modelled from the specification's words and are marked
`Modelled from the spec:` in their doc comments.
-/

/-- Identity of a stored record object: a record is the EventEmitter object
itself (the code does `this.subscriptions[queryId] = new EventEmitter()` and
then assigns `subscriptionId` onto it), so we track the emitter's object
identity `eid` plus the assigned `subscriptionId`. -/
structure SubRecord where
  eid : Nat
  subscriptionId : String
deriving DecidableEq, Repr

/-- State of the subscription multiplexer: `subscriptions` models the
insertion-ordered `this.subscriptions` object, `nextEid` supplies the object
identity of the next `new EventEmitter()`. -/
structure MuxState where
  subscriptions : List (String × SubRecord)
  nextEid : Nat
deriving DecidableEq, Repr

/-- Property lookup `this.subscriptions[queryId]` on the insertion-ordered
mapping. -/
def lookupSub (subs : List (String × SubRecord)) (queryId : String) : Option SubRecord :=
  (subs.find? (fun p => p.1 == queryId)).map Prod.snd

/-- A JavaScript value as observed by a subscribe caller: either a reference
to an EventEmitter object (by identity) or `undefined`. -/
inductive JsValue
  | emitterRef (eid : Nat)
  | undefinedVal
deriving DecidableEq, Repr

/-- Property access `record.emitter` (line 138 of `index.js`).  The stored
record is the EventEmitter instance itself; an EventEmitter defines no
`emitter` property, so the access yields `undefined`. -/
def emitterProp (_ : SubRecord) : JsValue :=
  .undefinedVal

/-- Reply of the channel to the `doc` subscribe push: `ok` carrying the
server-assigned `subscriptionId`, or `error`. -/
inductive ChannelReply
  | ok (subscriptionId : String)
  | err (e : String)
deriving DecidableEq, Repr

/-- How a `subscriptionFn` call settles: its promise resolves with a value or
rejects with the channel's error. -/
inductive SubscribeOutcome
  | resolved (v : JsValue)
  | rejected (e : String)
deriving DecidableEq, Repr

/-- Result of one `subscriptionFn` invocation: the post-state, the outcome
observed by the caller, and how many channel-level `doc` subscribe pushes the
call issued. -/
structure SubscribeStep where
  state : MuxState
  outcome : SubscribeOutcome
  docPushes : Nat
deriving DecidableEq, Repr

/-- One invocation of a generated `subscriptionFn` (lines 134-160 of
`index.js`), given the `queryId` computed from the rendered query and the
channel's reply to the `doc` push.  If a record already exists for
`queryId`, the call resolves immediately with `record.emitter` and issues no
push; otherwise it pushes `doc`, and on `ok` stores a fresh EventEmitter
(with `subscriptionId` assigned) at `queryId` and resolves with it, while on
`error` it rejects without touching the mapping. -/
def subscribeStep (s : MuxState) (queryId : String) (reply : ChannelReply) : SubscribeStep :=
  match lookupSub s.subscriptions queryId with
  | some r => ⟨s, .resolved (emitterProp r), 0⟩
  | none =>
    match reply with
    | .ok sid =>
      ⟨⟨s.subscriptions ++ [(queryId, ⟨s.nextEid, sid⟩)], s.nextEid + 1⟩,
        .resolved (.emitterRef s.nextEid), 1⟩
    | .err e => ⟨s, .rejected e, 1⟩

/-- An inbound socket message `{ event, payload }` where the payload carries
`subscriptionId` and `result.data`. -/
structure InboundMessage where
  event : String
  subscriptionId : String
  resultData : String
deriving DecidableEq, Repr

/-- An event emitted on a stored record's EventEmitter: the emitter's object
identity, the event name, and the payload. -/
structure EmitAction where
  eid : Nat
  eventName : String
  payload : String
deriving DecidableEq, Repr

/-- The `socket.onMessage` handler (lines 243-254 of `index.js`): on a
`subscription:data` event, find the first `queryId` whose record carries the
payload's `subscriptionId` and emit `data` with `payload.result.data` on it;
otherwise do nothing.  The handler never mutates the mapping. -/
def handleSocketMessage (s : MuxState) (m : InboundMessage) : MuxState × List EmitAction :=
  if m.event == "subscription:data" then
    match s.subscriptions.find? (fun p => p.2.subscriptionId == m.subscriptionId) with
    | some p => (s, [⟨p.2.eid, "data", m.resultData⟩])
    | none => (s, [])
  else (s, [])

/-- Effects of the `socket.onConnError` handler: the post-state, the emitter
events fired, and the delay in milliseconds after which `socket.connect()` is
rescheduled. -/
structure ConnErrorEffects where
  state : MuxState
  emits : List EmitAction
  reconnectDelayMs : Nat
deriving DecidableEq, Repr

/-- The `socket.onConnError` handler (lines 256-265 of `index.js`): emit
`error` with the transport error on every stored record's emitter, then
schedule `socket.connect()` after a fixed 1000 ms; the mapping is untouched. -/
def handleConnError (s : MuxState) (e : String) : ConnErrorEffects :=
  ⟨s, s.subscriptions.map (fun p => ⟨p.2.eid, "error", e⟩), 1000⟩

/-- The channel object as seen by `_ensureSubscriptionChannel`'s guard: only
its `isJoined()` flag matters. -/
structure ChannelConn where
  isJoined : Bool
deriving DecidableEq, Repr

/-- Connection-layer state: whether a channel object exists (and is joined),
plus counters of the observable effects at the socket boundary: how many
`new Socket(...)` constructions and how many `channel.join()` pushes have
happened. -/
structure SocketLayerState where
  channel : Option ChannelConn
  socketsCreated : Nat
  joinsIssued : Nat
deriving DecidableEq, Repr

/-- The guard `this.channel && this.channel.isJoined()` (line 231 of
`index.js`). -/
def channelIsJoined (s : SocketLayerState) : Bool :=
  match s.channel with
  | some c => c.isJoined
  | none => false

/-- What the synchronous prefix of `_ensureSubscriptionChannel` did. -/
inductive EnsureAction
  | reuseExisting
  | newSocketAndJoin
deriving DecidableEq, Repr

/-- The synchronous prefix of `_ensureSubscriptionChannel` (lines 230-279 of
`index.js`), which runs to completion before the join acknowledgement can
arrive: if a channel exists and `isJoined()`, reuse it; otherwise construct a
new `Socket`, connect, create the control channel (not yet joined) and issue
`join()`.  An async JS function runs this prefix synchronously, so two calls
interleave only around the await on the join acknowledgement. -/
def ensureSubscriptionChannelSync (s : SocketLayerState) : SocketLayerState × EnsureAction :=
  if channelIsJoined s then (s, .reuseExisting)
  else (⟨some ⟨false⟩, s.socketsCreated + 1, s.joinsIssued + 1⟩, .newSocketAndJoin)

/-- The channel join handshake completing with `ok` (line 271 of
`index.js`): the channel becomes joined. -/
def joinOk (s : SocketLayerState) : SocketLayerState :=
  ⟨some ⟨true⟩, s.socketsCreated, s.joinsIssued⟩

/-- The JSON body of an HTTP response, `res.data`: a `data` payload and an
optional `errors` field. -/
structure ResponseBody where
  data : String
  errors : Option String
deriving DecidableEq, Repr

/-- An HTTP response as `_doRequest` inspects it: `res.status` and
`res.data`. -/
structure HttpResponse where
  status : Nat
  body : ResponseBody
deriving DecidableEq, Repr

/-- `_doRequest` (lines 204-222 of `index.js`) after the transport returns
`res`: if `res.status === 200` return `res.data.data`, else throw
`doRequest.error: <status>`. -/
def doRequest (res : HttpResponse) : Except String String :=
  if res.status = 200 then .ok res.body.data
  else .error ("doRequest.error: " ++ toString res.status)

/-- `doRawQuery` (lines 86-93 of `index.js`), parameterised by the external
`graphql` collaborators `parseFn` and `printFn` (either may throw, modelled
as `Except`) and by the transport `request`.  The first component is what the
caller observes; the second lists the network requests issued (the text
passed to `_doRequest`).  A parse or print failure is caught and rethrown as
`BaseClient: invalid raw query <message>` with no request issued; otherwise
exactly the normalised text `print(parse(query))` is sent.  (`_doRequest` is
an async function, so it never throws synchronously into this `try`.) -/
def doRawQuery {α ρ : Type} (parseFn : String → Except String α)
    (printFn : α → Except String String) (request : String → ρ)
    (query : String) : Except String ρ × List String :=
  match parseFn query with
  | .error e => (.error ("BaseClient: invalid raw query " ++ e), [])
  | .ok ast =>
    match printFn ast with
    | .error e => (.error ("BaseClient: invalid raw query " ++ e), [])
    | .ok cleanQuery => (.ok (request cleanQuery), [cleanQuery])

/-- Modelled from the spec: a field of an object type in the TypeGraph (the
builder engine `getQueryBuilders`/`getMutationBuilders`/
`getSubscriptionBuilders` from `./util` is not in the repository snapshot).
A field has a name and a reference, by name, to its return type. -/
structure FieldDef where
  name : String
  typeName : String
deriving DecidableEq, Repr

/-- Modelled from the spec: the kind of a named type — scalar and enum types
are leaves (no sub-selection); an object type carries its fields. -/
inductive TypeKind
  | scalar
  | enum
  | object (fields : List FieldDef)
deriving DecidableEq, Repr

/-- Modelled from the spec: the TypeGraph, a mapping from type name to type,
possibly cyclic through field references. -/
def TypeGraph : Type :=
  List (String × TypeKind)

/-- Resolve a type name in the TypeGraph. -/
def lookupType (g : TypeGraph) (n : String) : Option TypeKind :=
  (g.find? (fun p => p.1 == n)).map Prod.snd

/-- Modelled from the spec: the exclusion predicate `(type name, field name)
→ omit?`, supplied through `_getIgnoreFields`. -/
def ExclusionPredicate : Type :=
  String → String → Bool

/-- How many type names of the graph are not yet on the current recursion
path: the termination measure of the selection-set traversal. -/
def unvisited (g : TypeGraph) (path : List String) : Nat :=
  ((g.map Prod.fst).toFinset \ path.toFinset).card

/-- Outcome of rendering the selection set of one named return type:
`truncated` on re-entry into a type already on the recursion path (the caller
omits the cyclic field), `leaf` for scalar/enum (no sub-selection), `sub` for
an object type's rendered selection-set text. -/
inductive SelOut
  | truncated
  | leaf
  | sub (s : String)
deriving DecidableEq, Repr

/-- Generation-time failure: an unresolvable type reference or missing root
aborts generation (`SchemaInconsistency` in the spec's taxonomy). -/
inductive SchemaErr
  | schemaInconsistency
deriving DecidableEq, Repr

mutual

/-- Modelled from the spec: selection-set rendering for a named return type
(the engine in `./util` is not in the repository snapshot).  Re-entry into a
type already on the recursion path truncates; a dangling reference fails with
`SchemaInconsistency`; scalars/enums are leaves; an object renders the
selection of its non-excluded fields with itself pushed on the path. -/
def renderSelection (g : TypeGraph) (ign : ExclusionPredicate) (n : String)
    (path : List String) : Except SchemaErr SelOut :=
  if hmem : n ∈ path then .ok .truncated
  else
    match hfind : lookupType g n with
    | none => .error .schemaInconsistency
    | some .scalar => .ok .leaf
    | some .enum => .ok .leaf
    | some (.object fields) =>
      match renderFields g ign n fields (n :: path) with
      | .error e => .error e
      | .ok entries => .ok (.sub ("\x7b " ++ String.intercalate " " entries ++ " \x7d"))
termination_by (unvisited g path, 0)
decreasing_by
  refine Prod.Lex.left _ _ ?_
  have hnames : n ∈ g.map Prod.fst := by
    obtain ⟨p, hp, -⟩ := Option.map_eq_some'.mp hfind
    have hq : p.1 = n := by simpa using List.find?_some hp
    exact hq ▸ List.mem_map_of_mem Prod.fst (List.mem_of_find?_eq_some hp)
  have hsub : (g.map Prod.fst).toFinset \ (n :: path).toFinset ⊆
      (g.map Prod.fst).toFinset \ path.toFinset := by
    refine Finset.sdiff_subset_sdiff (Finset.Subset.refl _) ?_
    rw [List.toFinset_cons]
    exact Finset.subset_insert _ _
  have hlt : (g.map Prod.fst).toFinset \ (n :: path).toFinset ⊂
      (g.map Prod.fst).toFinset \ path.toFinset := by
    refine (Finset.ssubset_iff_of_subset hsub).mpr ⟨n, ?_, ?_⟩
    · simp [hnames, hmem]
    · simp
  simpa [unvisited] using Finset.card_lt_card hlt

/-- Modelled from the spec: render the selection entries of an object type's
fields (the engine in `./util` is not in the repository snapshot).  Excluded
fields are skipped; a field whose return type truncates (cycle re-entry) is
omitted; a leaf field contributes its name; an object field contributes its
name plus its sub-selection text. -/
def renderFields (g : TypeGraph) (ign : ExclusionPredicate) (tname : String)
    (fields : List FieldDef) (path : List String) : Except SchemaErr (List String) :=
  match fields with
  | [] => .ok []
  | f :: rest =>
    if ign tname f.name then renderFields g ign tname rest path
    else
      match renderSelection g ign f.typeName path, renderFields g ign tname rest path with
      | .error e, _ => .error e
      | .ok _, .error e => .error e
      | .ok .truncated, .ok tl => .ok tl
      | .ok .leaf, .ok tl => .ok (f.name :: tl)
      | .ok (.sub s), .ok tl => .ok ((f.name ++ " " ++ s) :: tl)
termination_by (unvisited g path, fields.length + 1)
decreasing_by
  · simp_wf
    exact Prod.Lex.right _ (by omega)
  · simp_wf
    exact Prod.Lex.right _ (by omega)
  · simp_wf
    exact Prod.Lex.right _ (by omega)

end

/-- Modelled from the spec: build the operation entries for the root type's
fields — for each non-excluded root field, render the selection set of its
return type, starting the recursion path at the root type's name; the
operation's rendered text pairs the field name with its selection. -/
def buildOpEntries (g : TypeGraph) (ign : ExclusionPredicate) (rootName : String)
    (fields : List FieldDef) : Except SchemaErr (List (String × String)) :=
  match fields with
  | [] => .ok []
  | f :: rest =>
    if ign rootName f.name then buildOpEntries g ign rootName rest
    else
      match renderSelection g ign f.typeName [rootName], buildOpEntries g ign rootName rest with
      | .error e, _ => .error e
      | .ok _, .error e => .error e
      | .ok .truncated, .ok tl => .ok tl
      | .ok .leaf, .ok tl => .ok ((f.name, f.name) :: tl)
      | .ok (.sub s), .ok tl => .ok ((f.name, f.name ++ " " ++ s) :: tl)

/-- Modelled from the spec: `buildOperations(typeGraph, rootTypeName,
exclusionPredicate)` — the generation entry point of the builder engine from
`./util`, absent from the repository snapshot.  A root type name that does
not resolve in the TypeGraph fails fast with `SchemaInconsistency`; a
non-object root exposes no operation fields. -/
def buildOperations (g : TypeGraph) (ign : ExclusionPredicate)
    (rootName : String) : Except SchemaErr (List (String × String)) :=
  match lookupType g rootName with
  | none => .error .schemaInconsistency
  | some .scalar => .ok []
  | some .enum => .ok []
  | some (.object fields) => buildOpEntries g ign rootName fields

/-- A root-type reference of the schema (`queryType`, `subscriptionType`,
`mutationType` each carry the root type's name, or are absent). -/
structure RootRef where
  name : String
deriving DecidableEq, Repr

/-- The schema object returned by `_getSchema`: the TypeGraph plus the
optional per-kind root-type references. -/
structure Schema where
  types : TypeGraph
  queryType : Option RootRef
  subscriptionType : Option RootRef
  mutationType : Option RootRef

/-- Construction failure of `BaseClient` (`constructor` plus the generate
functions, lines 8-41 of `index.js`): a missing `dataSource` config, an
unsupported data source (`_getSchema` gave nothing), or a
`SchemaInconsistency` escaping builder generation. -/
inductive ClientError
  | missingDataSource
  | unsupportedDataSource
  | schemaInconsistency
deriving DecidableEq, Repr

/-- `generateQueryFns`/`generateSubscriptionFns`/`generateMutationFns`
(lines 95-99, 121-125, 170-174 of `index.js`) up to builder generation: if
the schema has no root for this kind, install nothing (`return`); otherwise
run the builder engine on the root's name, and let any failure escape. -/
def generateKindFns (g : TypeGraph) (ign : ExclusionPredicate)
    (root : Option RootRef) : Except SchemaErr (List (String × String)) :=
  match root with
  | none => .ok []
  | some r => buildOperations g ign r.name

/-- A fully constructed client: the builder-backed operation functions
installed for each enabled kind, keyed by operation name. -/
structure Client where
  queryFns : List (String × String)
  subscriptionFns : List (String × String)
  mutationFns : List (String × String)

/-- The configuration the `BaseClient` constructor consumes: `dataSource`
(mandatory) and the per-kind enable flags. -/
structure ClientConfig where
  dataSource : Option String
  enableQuery : Bool
  enableSubscription : Bool
  enableMutation : Bool

/-- The `BaseClient` constructor (lines 8-41 of `index.js`): require
`dataSource`, resolve the schema via `_getSchema` (abstracted as a
function), then generate builders for each enabled kind in order —
query, subscription, mutation.  Any exception aborts construction, so a
failing generation yields no client object at all. -/
def constructClient (getSchema : String → Option Schema)
    (ign : ExclusionPredicate) (cfg : ClientConfig) : Except ClientError Client :=
  match cfg.dataSource with
  | none => .error .missingDataSource
  | some ds =>
    match getSchema ds with
    | none => .error .unsupportedDataSource
    | some schema =>
      match (if cfg.enableQuery then generateKindFns schema.types ign schema.queryType
             else .ok []) with
      | .error _ => .error .schemaInconsistency
      | .ok q =>
        match (if cfg.enableSubscription then
                 generateKindFns schema.types ign schema.subscriptionType
               else .ok []) with
        | .error _ => .error .schemaInconsistency
        | .ok s =>
          match (if cfg.enableMutation then
                   generateKindFns schema.types ign schema.mutationType
                 else .ok []) with
          | .error _ => .error .schemaInconsistency
          | .ok m => .ok ⟨q, s, m⟩

/-- Appending a record keyed `q1` does not change the lookup of a different
key `q2` in the subscriptions mapping. -/
lemma lookupSub_append_ne (subs : List (String × SubRecord)) (q1 q2 : String)
    (r : SubRecord) (h : q1 ≠ q2) :
    lookupSub (subs ++ [(q1, r)]) q2 = lookupSub subs q2 := by
  unfold lookupSub
  rw [List.find?_append]
  have hnone : List.find? (fun p : String × SubRecord => p.1 == q2) [(q1, r)] = none := by
    simp [List.find?, beq_eq_false_iff_ne.mpr h]
  rw [hnone, Option.or_none]

/-- C1: the claim says two subscribe calls with the same rendered query (and
hence the same queryId) return the same eventStream instance both times and
issue exactly one `doc` push across both calls.  The push count holds, but
the code is internally inconsistent about what it resolves with: the first
call resolves the stored record itself (the fresh EventEmitter, line 153),
while the dedup path resolves `this.subscriptions[queryId].emitter` (line
138) — a property no EventEmitter defines — so the second call resolves
`undefined`, not the same instance.  This theorem evaluates the model at the
failing input. -/
theorem c1_dedup_second_call_resolves_undefined :
    (subscribeStep ⟨[], 0⟩ "q" (.ok "sid-1")).outcome =
        .resolved (.emitterRef 0) ∧
      (subscribeStep (subscribeStep ⟨[], 0⟩ "q" (.ok "sid-1")).state "q"
          (.ok "sid-1")).outcome = .resolved .undefinedVal ∧
      (subscribeStep ⟨[], 0⟩ "q" (.ok "sid-1")).outcome ≠
        (subscribeStep (subscribeStep ⟨[], 0⟩ "q" (.ok "sid-1")).state "q"
          (.ok "sid-1")).outcome ∧
      (subscribeStep ⟨[], 0⟩ "q" (.ok "sid-1")).docPushes +
        (subscribeStep (subscribeStep ⟨[], 0⟩ "q" (.ok "sid-1")).state "q"
          (.ok "sid-1")).docPushes = 1 := by
  decide

/-- C3: on a transport-level connection error, the handler emits an `error`
event carrying the error on every live record's eventStream, schedules one
reconnect after a fixed 1000 ms delay, and leaves the queryId-to-record
mapping unchanged. -/
theorem c3_conn_error_broadcasts_and_schedules_reconnect (s : MuxState) (e : String) :
    (handleConnError s e).state = s ∧
      (handleConnError s e).reconnectDelayMs = 1000 ∧
      (∀ p ∈ s.subscriptions,
        EmitAction.mk p.2.eid "error" e ∈ (handleConnError s e).emits) := by
  refine ⟨rfl, rfl, ?_⟩
  intro p hp
  exact List.mem_map_of_mem _ hp

/-- Witness for C3 at a concrete state with two live records: both emitters
receive the error, the delay is 1000 ms and the mapping survives. -/
theorem c3_witness :
    (handleConnError ⟨[("q1", ⟨0, "s1"⟩), ("q2", ⟨1, "s2"⟩)], 2⟩ "boom").state =
        ⟨[("q1", ⟨0, "s1"⟩), ("q2", ⟨1, "s2"⟩)], 2⟩ ∧
      (handleConnError ⟨[("q1", ⟨0, "s1"⟩), ("q2", ⟨1, "s2"⟩)], 2⟩ "boom").reconnectDelayMs =
        1000 ∧
      EmitAction.mk 0 "error" "boom" ∈
        (handleConnError ⟨[("q1", ⟨0, "s1"⟩), ("q2", ⟨1, "s2"⟩)], 2⟩ "boom").emits ∧
      EmitAction.mk 1 "error" "boom" ∈
        (handleConnError ⟨[("q1", ⟨0, "s1"⟩), ("q2", ⟨1, "s2"⟩)], 2⟩ "boom").emits := by
  refine ⟨(c3_conn_error_broadcasts_and_schedules_reconnect _ "boom").1,
    (c3_conn_error_broadcasts_and_schedules_reconnect _ "boom").2.1, ?_, ?_⟩
  · exact (c3_conn_error_broadcasts_and_schedules_reconnect _ "boom").2.2
      ("q1", ⟨0, "s1"⟩) (by decide)
  · exact (c3_conn_error_broadcasts_and_schedules_reconnect _ "boom").2.2
      ("q2", ⟨1, "s2"⟩) (by decide)

/-- C5: a `subscription:data` message whose `subscriptionId` matches no live
record is dropped silently — no event is emitted on any eventStream and the
subscriptions mapping is unchanged. -/
theorem c5_unknown_subscription_data_dropped (s : MuxState) (m : InboundMessage)
    (hev : m.event = "subscription:data")
    (h : ∀ p ∈ s.subscriptions, p.2.subscriptionId ≠ m.subscriptionId) :
    handleSocketMessage s m = (s, []) := by
  have hfind : s.subscriptions.find?
      (fun p => p.2.subscriptionId == m.subscriptionId) = none :=
    List.find?_eq_none.mpr (fun x hx => by simpa using h x hx)
  simp [handleSocketMessage, hev, hfind]

/-- Witness for C5: a concrete state with one record whose subscriptionId
differs from the inbound payload's. -/
theorem c5_witness :
    handleSocketMessage ⟨[("q1", ⟨0, "s1"⟩)], 1⟩ ⟨"subscription:data", "stale", "d"⟩ =
      (⟨[("q1", ⟨0, "s1"⟩)], 1⟩, []) :=
  c5_unknown_subscription_data_dropped ⟨[("q1", ⟨0, "s1"⟩)], 1⟩
    ⟨"subscription:data", "stale", "d"⟩ rfl (by decide)

/-- C6: when the channel replies `error` to the `doc` subscribe push, the
call rejects with that error and no record is created — the subscriptions
mapping is exactly as before. -/
theorem c6_rejected_subscribe_creates_no_record (s : MuxState) (q e : String)
    (h : lookupSub s.subscriptions q = none) :
    subscribeStep s q (.err e) = ⟨s, .rejected e, 1⟩ := by
  simp [subscribeStep, h]

/-- Witness for C6 at the empty mapping. -/
theorem c6_witness :
    subscribeStep ⟨[], 0⟩ "q" (.err "denied") = ⟨⟨[], 0⟩, .rejected "denied", 1⟩ :=
  c6_rejected_subscribe_creates_no_record ⟨[], 0⟩ "q" "denied" (by decide)

/-- C7: `_doRequest` returns `res.data.data` exactly when the status is 200;
any other status throws `doRequest.error: <status>` and no data value is
returned. -/
theorem c7_do_request_ok_iff_status_200 (res : HttpResponse) (d : String) :
    (doRequest res = .ok d ↔ res.status = 200 ∧ d = res.body.data) ∧
      (res.status ≠ 200 →
        doRequest res = .error ("doRequest.error: " ++ toString res.status)) := by
  constructor
  · unfold doRequest
    by_cases h : res.status = 200
    · simp [h, eq_comm]
    · simp [h]
  · intro h
    simp [doRequest, h]

/-- Witness for C7: a 200 response yields its data payload; a 500 response
throws. -/
theorem c7_witness :
    doRequest ⟨200, ⟨"payload", none⟩⟩ = .ok "payload" ∧
      doRequest ⟨500, ⟨"x", none⟩⟩ =
        .error ("doRequest.error: " ++ toString (500 : Nat)) := by
  constructor
  · exact (c7_do_request_ok_iff_status_200 ⟨200, ⟨"payload", none⟩⟩ "payload").1.mpr
      ⟨rfl, rfl⟩
  · exact (c7_do_request_ok_iff_status_200 ⟨500, ⟨"x", none⟩⟩ "x").2 (by decide)

/-- C9: the claim says concurrent subscribe calls racing before the first
join completes converge on one socket and one join.  The guard at line 231
only checks `isJoined()`, which is still false while the join handshake is
in flight, so a second caller arriving before the join acknowledgement
creates a second socket and issues a second join.  This theorem evaluates
the model at the failing interleaving (two calls, then the join completes;
a third call after completion does reuse the channel). -/
theorem c9_concurrent_ensure_channel_creates_two_sockets :
    (ensureSubscriptionChannelSync
        (ensureSubscriptionChannelSync ⟨none, 0, 0⟩).1).1.socketsCreated = 2 ∧
      (ensureSubscriptionChannelSync
        (ensureSubscriptionChannelSync ⟨none, 0, 0⟩).1).1.joinsIssued = 2 ∧
      (ensureSubscriptionChannelSync (joinOk (ensureSubscriptionChannelSync
        (ensureSubscriptionChannelSync ⟨none, 0, 0⟩).1).1)).2 = .reuseExisting := by
  decide

/-- C2: the selection-set traversal truncates at re-entry into a type already
on the current recursion path — for every TypeGraph (cyclic or not), every
exclusion predicate and every path, rendering a type that is already on the
path yields `truncated` without recursing.  Together with `renderSelection`
and `renderFields` being total Lean functions (their recursion is
well-founded on the count of unvisited type names), builder generation
terminates on every graph, including self-referential ones, and the cyclic
field is omitted rather than recursed into. -/
theorem c2_render_truncates_on_reentry (g : TypeGraph) (ign : ExclusionPredicate)
    (n : String) (path : List String) (h : n ∈ path) :
    renderSelection g ign n path = .ok .truncated := by
  rw [renderSelection]
  exact dif_pos h

/-- Witness for C2 on a concrete self-referential graph (`User.friend :
User`): re-entry truncates, and the generated operation for the root omits
the cyclic `friend` field while keeping the scalar `id`. -/
theorem c2_witness :
    renderSelection [("User", .object [⟨"id", "ID"⟩, ⟨"friend", "User"⟩]), ("ID", .scalar)]
        (fun _ _ => false) "User" ["User"] = .ok .truncated ∧
      buildOperations [("User", .object [⟨"id", "ID"⟩, ⟨"friend", "User"⟩]), ("ID", .scalar)]
        (fun _ _ => false) "User" = .ok [("id", "id")] := by
  have htrunc := c2_render_truncates_on_reentry
    [("User", .object [⟨"id", "ID"⟩, ⟨"friend", "User"⟩]), ("ID", .scalar)]
    (fun _ _ => false) "User" ["User"] (by decide)
  have hID : renderSelection
      [("User", .object [⟨"id", "ID"⟩, ⟨"friend", "User"⟩]), ("ID", .scalar)]
      (fun _ _ => false) "ID" ["User"] = .ok .leaf := by
    rw [renderSelection]
    rfl
  refine ⟨htrunc, ?_⟩
  simp [buildOperations, buildOpEntries, lookupType, List.find?, hID, htrunc]

/-- C4: a root type name that does not resolve in the TypeGraph, or an
unresolvable return-type reference met during traversal, fails builder
generation with `SchemaInconsistency`, and any such generation failure for an
enabled operation kind aborts `BaseClient` construction — the constructor
throws, so no client object (hence no partial set of builder functions) is
produced. -/
theorem c4_schema_inconsistency_aborts_construction :
    (∀ (getSchema : String → Option Schema) (ign : ExclusionPredicate)
        (cfg : ClientConfig) (ds : String) (schema : Schema) (r : RootRef),
        cfg.dataSource = some ds → getSchema ds = some schema →
        cfg.enableQuery = true → schema.queryType = some r →
        buildOperations schema.types ign r.name = .error .schemaInconsistency →
        constructClient getSchema ign cfg = .error .schemaInconsistency) ∧
      (∀ (g : TypeGraph) (ign : ExclusionPredicate) (rootName : String),
        lookupType g rootName = none →
        buildOperations g ign rootName = .error .schemaInconsistency) ∧
      (∀ (g : TypeGraph) (ign : ExclusionPredicate) (n : String) (path : List String),
        n ∉ path → lookupType g n = none →
        renderSelection g ign n path = .error .schemaInconsistency) := by
  refine ⟨?_, ?_, ?_⟩
  · intro getSchema ign cfg ds schema r hds hgs hq hroot hbuild
    simp [constructClient, hds, hgs, hq, generateKindFns, hroot, hbuild]
  · intro g ign rootName h
    simp [buildOperations, h]
  · intro g ign n path hnp hnone
    rw [renderSelection]
    rw [dif_neg hnp]
    split <;> simp_all

/-- Witness for C4: a schema whose query root is named `Missing`, absent
from the TypeGraph — client construction fails with `SchemaInconsistency`. -/
theorem c4_witness :
    constructClient
        (fun _ => some ⟨[("Query", .object [⟨"f", "Query"⟩])], some ⟨"Missing"⟩, none, none⟩)
        (fun _ _ => false) ⟨some "ds", true, true, true⟩ =
      .error .schemaInconsistency := by
  refine c4_schema_inconsistency_aborts_construction.1
    (fun _ => some ⟨[("Query", .object [⟨"f", "Query"⟩])], some ⟨"Missing"⟩, none, none⟩)
    (fun _ _ => false) ⟨some "ds", true, true, true⟩ "ds"
    ⟨[("Query", .object [⟨"f", "Query"⟩])], some ⟨"Missing"⟩, none, none⟩ ⟨"Missing"⟩
    rfl rfl rfl rfl ?_
  exact c4_schema_inconsistency_aborts_construction.2.1
    [("Query", .object [⟨"f", "Query"⟩])] (fun _ _ => false) "Missing" (by decide)

/-- C8: two subscribe calls whose rendered operations differ (distinct
queryIds), both fresh, each issue one `doc` push and resolve with two
distinct EventEmitter instances. -/
theorem c8_distinct_queries_two_pushes_distinct_streams
    (s : MuxState) (q1 q2 sid1 sid2 : String) (hne : q1 ≠ q2)
    (h1 : lookupSub s.subscriptions q1 = none)
    (h2 : lookupSub s.subscriptions q2 = none) :
    (subscribeStep s q1 (.ok sid1)).docPushes = 1 ∧
      (subscribeStep (subscribeStep s q1 (.ok sid1)).state q2 (.ok sid2)).docPushes = 1 ∧
      (subscribeStep s q1 (.ok sid1)).outcome = .resolved (.emitterRef s.nextEid) ∧
      (subscribeStep (subscribeStep s q1 (.ok sid1)).state q2 (.ok sid2)).outcome =
        .resolved (.emitterRef (s.nextEid + 1)) ∧
      (subscribeStep s q1 (.ok sid1)).outcome ≠
        (subscribeStep (subscribeStep s q1 (.ok sid1)).state q2 (.ok sid2)).outcome := by
  have e1 : subscribeStep s q1 (.ok sid1) =
      ⟨⟨s.subscriptions ++ [(q1, ⟨s.nextEid, sid1⟩)], s.nextEid + 1⟩,
        .resolved (.emitterRef s.nextEid), 1⟩ := by
    simp [subscribeStep, h1]
  have h2' : lookupSub (s.subscriptions ++ [(q1, ⟨s.nextEid, sid1⟩)]) q2 = none := by
    rw [lookupSub_append_ne _ _ _ _ hne]
    exact h2
  have e2 : subscribeStep (subscribeStep s q1 (.ok sid1)).state q2 (.ok sid2) =
      ⟨⟨s.subscriptions ++ [(q1, ⟨s.nextEid, sid1⟩)] ++ [(q2, ⟨s.nextEid + 1, sid2⟩)],
          s.nextEid + 1 + 1⟩, .resolved (.emitterRef (s.nextEid + 1)), 1⟩ := by
    rw [e1]
    simp [subscribeStep, h2']
  rw [e2, e1]
  refine ⟨rfl, rfl, rfl, rfl, ?_⟩
  simp

/-- Witness for C8: two fresh queries against the empty mapping give two
pushes and emitters with distinct identities 0 and 1. -/
theorem c8_witness :
    (subscribeStep ⟨[], 0⟩ "qa" (.ok "s1")).docPushes = 1 ∧
      (subscribeStep (subscribeStep ⟨[], 0⟩ "qa" (.ok "s1")).state "qb"
          (.ok "s2")).docPushes = 1 ∧
      (subscribeStep ⟨[], 0⟩ "qa" (.ok "s1")).outcome = .resolved (.emitterRef 0) ∧
      (subscribeStep (subscribeStep ⟨[], 0⟩ "qa" (.ok "s1")).state "qb"
          (.ok "s2")).outcome = .resolved (.emitterRef 1) ∧
      (subscribeStep ⟨[], 0⟩ "qa" (.ok "s1")).outcome ≠
        (subscribeStep (subscribeStep ⟨[], 0⟩ "qa" (.ok "s1")).state "qb"
          (.ok "s2")).outcome :=
  c8_distinct_queries_two_pushes_distinct_streams ⟨[], 0⟩ "qa" "qb" "s1" "s2"
    (by decide) (by decide) (by decide)

/-- C10: `doRawQuery` first normalises the input through the external
parse/print pair; a parse or print failure is rethrown as `BaseClient:
invalid raw query <message>` with no network request issued, and otherwise
exactly the normalised text is sent via `_doRequest` and that request's
result returned. -/
theorem c10_raw_query_normalizes_or_rejects {α ρ : Type}
    (parseFn : String → Except String α) (printFn : α → Except String String)
    (request : String → ρ) (q : String) :
    (∀ e, parseFn q = .error e →
        doRawQuery parseFn printFn request q =
          (.error ("BaseClient: invalid raw query " ++ e), [])) ∧
      (∀ a e, parseFn q = .ok a → printFn a = .error e →
        doRawQuery parseFn printFn request q =
          (.error ("BaseClient: invalid raw query " ++ e), [])) ∧
      (∀ a s, parseFn q = .ok a → printFn a = .ok s →
        doRawQuery parseFn printFn request q = (.ok (request s), [s])) := by
  refine ⟨?_, ?_, ?_⟩
  · intro e he
    simp [doRawQuery, he]
  · intro a e ha he
    simp [doRawQuery, ha, he]
  · intro a s ha hs
    simp [doRawQuery, ha, hs]

/-- Witness for C10 with a concrete parse/print pair: an invalid query is
rejected with the prefixed message and no request; a valid one sends exactly
the normalised text. -/
theorem c10_witness :
    doRawQuery (fun s => if s = "good" then Except.ok "AST" else Except.error "Syntax Error")
        (fun a => Except.ok (a ++ "!")) (fun s => s) "bad" =
      (.error ("BaseClient: invalid raw query " ++ "Syntax Error"), []) ∧
      doRawQuery (fun s => if s = "good" then Except.ok "AST" else Except.error "Syntax Error")
        (fun a => Except.ok (a ++ "!")) (fun s => s) "good" =
      (.ok ("AST" ++ "!"), ["AST" ++ "!"]) := by
  constructor
  · exact (c10_raw_query_normalizes_or_rejects _ _ _ "bad").1 "Syntax Error" (by simp)
  · exact (c10_raw_query_normalizes_or_rejects _ _ _ "good").2.2 "AST" ("AST" ++ "!")
      (by simp) rfl
